import Mathlib

/-!
Shallow embedding of the real-time event-distribution layer of the
SimpleCards backend (src/backend/src/websocket/{events.rs, handler.rs}
and the pieces of src/backend/src/{database/models.rs, utils/errors.rs,
auth/jwt.rs} they use).

Modelling conventions:
* `Uuid` is modelled as `ℕ` (only identity/equality of ids matters).
* `DateTime<Utc>` is modelled as `ℕ`; every operation that calls
  `Utc::now()` in Rust takes an explicit `now : ℕ` argument.
* `std::collections::HashSet<Uuid>` is modelled as a duplicate-free
  `List ℕ`: `insert` appends only when absent, `remove` filters,
  `contains` is list membership.  All claims are about set contents
  and per-project event counts, which are iteration-order independent.
* A `tokio::sync::broadcast` channel registered for a user is modelled
  as the queue (`List WebSocketEvent`) of events enqueued to it; a
  successful `sender.send(e)` appends `e` to the queue.
* The database / JWT collaborators (`ProjectQueries::is_project_member`,
  `UserQueries::get_user_by_id`, `JwtService::verify_token`,
  `Uuid::parse`) are external oracles, packaged in `Services`.
-/

namespace SimpleCards

/-- The `UserSummary` from database/models.rs. -/
structure UserSummary where
  id : ℕ
  username : String
  display_name : String
  avatar_url : Option String
deriving DecidableEq

/-- The `TaskStatus` from database/models.rs. -/
inductive TaskStatus where
  | Todo | InProgress | Review | Done
deriving DecidableEq

/-- The `TaskPriority` from database/models.rs. -/
inductive TaskPriority where
  | Low | Medium | High | Critical
deriving DecidableEq

/-- The `Task` from database/models.rs. -/
structure Task where
  id : ℕ
  title : String
  description : Option String
  project_id : ℕ
  created_by : ℕ
  assigned_to : Option ℕ
  status : TaskStatus
  priority : TaskPriority
  due_date : Option ℕ
  tags : Option (List String)
  position : Int
  created_at : ℕ
  updated_at : ℕ
deriving DecidableEq

/-- The `Board` from database/models.rs. -/
structure Board where
  id : ℕ
  name : String
  description : Option String
  project_id : ℕ
  created_by : ℕ
  columns : List String
  is_default : Bool
  created_at : ℕ
  updated_at : ℕ
deriving DecidableEq

/-- The `TaskComment` from database/models.rs. -/
structure TaskComment where
  id : ℕ
  task_id : ℕ
  user_id : ℕ
  content : String
  created_at : ℕ
  updated_at : ℕ
deriving DecidableEq

/-- The `TaskEventData` from websocket/events.rs. -/
structure TaskEventData where
  task : Task
  project_id : ℕ
  user : UserSummary
deriving DecidableEq

/-- The `TaskMoveEventData` from websocket/events.rs. -/
structure TaskMoveEventData where
  task_id : ℕ
  from_status : TaskStatus
  to_status : TaskStatus
  position : Int
  project_id : ℕ
  user : UserSummary
deriving DecidableEq

/-- The `BoardEventData` from websocket/events.rs. -/
structure BoardEventData where
  board : Board
  project_id : ℕ
  user : UserSummary
deriving DecidableEq

/-- The `CommentEventData` from websocket/events.rs. -/
structure CommentEventData where
  comment : TaskComment
  task_id : ℕ
  project_id : ℕ
  user : UserSummary
deriving DecidableEq

/-- The `UserPresenceData` from websocket/events.rs. -/
structure UserPresenceData where
  user : UserSummary
  project_id : ℕ
  timestamp : ℕ
deriving DecidableEq

/-- The `TypingEventData` from websocket/events.rs. -/
structure TypingEventData where
  user : UserSummary
  task_id : ℕ
  project_id : ℕ
  timestamp : ℕ
deriving DecidableEq

/-- The `WebSocketEvent` enum from websocket/events.rs (all variants). -/
inductive WebSocketEvent where
  | Authenticate (token : String)
  | AuthenticationSuccess (user_id : ℕ)
  | AuthenticationError (message : String)
  | Subscribe (project_id : ℕ)
  | Unsubscribe (project_id : ℕ)
  | SubscriptionSuccess (project_id : ℕ)
  | SubscriptionError (message : String)
  | TaskCreated (data : TaskEventData)
  | TaskUpdated (data : TaskEventData)
  | TaskDeleted (task_id : ℕ) (project_id : ℕ)
  | TaskMoved (data : TaskMoveEventData)
  | BoardCreated (data : BoardEventData)
  | BoardUpdated (data : BoardEventData)
  | BoardDeleted (board_id : ℕ) (project_id : ℕ)
  | CommentCreated (data : CommentEventData)
  | CommentDeleted (comment_id : ℕ) (task_id : ℕ) (project_id : ℕ)
  | UserJoined (data : UserPresenceData)
  | UserLeft (data : UserPresenceData)
  | UserTyping (data : TypingEventData)
  | UserStoppedTyping (data : TypingEventData)
  | Error (message : String)
  | Pong
deriving DecidableEq

/-- The `AppError` from utils/errors.rs, plus the `BadRequest` variant that
websocket/handler.rs constructs (handler.rs uses `AppError::BadRequest`
although the enum in utils/errors.rs does not declare it). -/
inductive AppError where
  | Database (message : String)
  | Validation (message : String)
  | NotFound (message : String)
  | Unauthorized (message : String)
  | Forbidden (message : String)
  | Conflict (message : String)
  | InternalServer (message : String)
  | BadRequest (message : String)
deriving DecidableEq

/-- The `fmt::Display` impl for `AppError` in utils/errors.rs
(`e.to_string()`); `BadRequest` is given the obvious reading. -/
def AppError.toMessage : AppError → String
  | .Database m => "Database error: " ++ m
  | .Validation m => "Validation error: " ++ m
  | .NotFound m => "Not found: " ++ m
  | .Unauthorized m => "Unauthorized: " ++ m
  | .Forbidden m => "Forbidden: " ++ m
  | .Conflict m => "Conflict: " ++ m
  | .InternalServer m => "Internal server error: " ++ m
  | .BadRequest m => "Bad request: " ++ m

/-- The `ConnectionInfo` from websocket/events.rs.  `subscribed_projects`
is a Rust `HashSet<Uuid>`, modelled as a duplicate-free list. -/
structure ConnectionInfo where
  user_id : ℕ
  subscribed_projects : List ℕ
  last_seen : ℕ
deriving DecidableEq

/-- The `ConnectionInfo::new`. -/
def ConnectionInfo.new (user_id : ℕ) (now : ℕ) : ConnectionInfo :=
  { user_id := user_id, subscribed_projects := [], last_seen := now }

/-- The `ConnectionInfo::subscribe_to_project`: `HashSet::insert` plus a
`last_seen` refresh. -/
def ConnectionInfo.subscribe_to_project (ci : ConnectionInfo) (project_id : ℕ)
    (now : ℕ) : ConnectionInfo :=
  { ci with
    subscribed_projects :=
      if project_id ∈ ci.subscribed_projects then ci.subscribed_projects
      else ci.subscribed_projects ++ [project_id],
    last_seen := now }

/-- The `ConnectionInfo::unsubscribe_from_project`: `HashSet::remove` plus a
`last_seen` refresh. -/
def ConnectionInfo.unsubscribe_from_project (ci : ConnectionInfo) (project_id : ℕ)
    (now : ℕ) : ConnectionInfo :=
  { ci with
    subscribed_projects := ci.subscribed_projects.filter (fun p => p ≠ project_id),
    last_seen := now }

/-- The `ConnectionInfo::is_subscribed_to`: `HashSet::contains`. -/
def ConnectionInfo.is_subscribed_to (ci : ConnectionInfo) (project_id : ℕ) : Bool :=
  project_id ∈ ci.subscribed_projects

/-- The `ConnectionInfo::update_last_seen`. -/
def ConnectionInfo.update_last_seen (ci : ConnectionInfo) (now : ℕ) : ConnectionInfo :=
  { ci with last_seen := now }

/-- The external collaborators consumed by the websocket layer:
`ProjectQueries::is_project_member` (a DB call returning
`Result<bool, AppError>`), `UserQueries::get_user_by_id` (modelled at the
granularity the handler uses: `Ok(user)` becomes `some` of the
`UserSummary` it is converted into, `Err` becomes `none`),
`JwtService::verify_token` (returning the `sub` claim on success) and
`str::parse::<Uuid>` for the `sub` claim. -/
structure Services where
  is_project_member : ℕ → ℕ → Except AppError Bool
  get_user_by_id : ℕ → Option UserSummary
  verify_token : String → Option String
  parse_uuid : String → Option ℕ

/-- The `WebSocketState` from websocket/handler.rs: `connections` maps a user
id to the broadcast channel registered for it (modelled as the queue of
events enqueued to that channel), `user_connections` maps a user id to
its `ConnectionInfo`. -/
structure WebSocketState where
  connections : ℕ → Option (List WebSocketEvent)
  user_connections : ℕ → Option ConnectionInfo

/-- Pointwise map update (`HashMap::insert` with `some v`,
`HashMap::remove` with `none`). -/
def updFn {α : Type} (f : ℕ → Option α) (k : ℕ) (v : Option α) : ℕ → Option α :=
  fun x => if x = k then v else f x

/-- The `WebSocketState::new`: both maps empty. -/
def WebSocketState.new : WebSocketState :=
  { connections := fun _ => none, user_connections := fun _ => none }

/-- The `WebSocketState::broadcast_to_project`: iterate `user_connections`;
for each entry, skip the excluded user, and if the connection is
subscribed to `project_id` and a sender is registered for that user,
send the event to it.  Stated pointwise per user, which is faithful
because each user's delivery is independent of the others. -/
def WebSocketState.broadcast_to_project (s : WebSocketState) (project_id : ℕ)
    (event : WebSocketEvent) (exclude_user : Option ℕ) : WebSocketState :=
  { s with
    connections := fun uid =>
      match s.user_connections uid with
      | none => s.connections uid
      | some conn_info =>
        if exclude_user = some uid then s.connections uid
        else if conn_info.is_subscribed_to project_id then
          match s.connections uid with
          | some q => some (q ++ [event])
          | none => none
        else s.connections uid }

/-- The `WebSocketState::send_to_user`: send the event on the user's channel
if one is registered, otherwise do nothing. -/
def WebSocketState.send_to_user (s : WebSocketState) (user_id : ℕ)
    (event : WebSocketEvent) : WebSocketState :=
  match s.connections user_id with
  | some q => { s with connections := updFn s.connections user_id (some (q ++ [event])) }
  | none => s

/-- The `WebSocketState::register_connection`: create a fresh channel (empty
queue) for the user and a fresh `ConnectionInfo`. -/
def WebSocketState.register_connection (s : WebSocketState) (user_id : ℕ)
    (now : ℕ) : WebSocketState :=
  { connections := updFn s.connections user_id (some []),
    user_connections := updFn s.user_connections user_id (some (ConnectionInfo.new user_id now)) }

/-- The `WebSocketState::unregister_connection`: remove the channel, remove
the `ConnectionInfo`, and — when one existed and the user lookup
succeeds — broadcast a `UserLeft` to every project the connection was
subscribed to (excluding the leaving user, whose channel is gone anyway). -/
def WebSocketState.unregister_connection (s : WebSocketState) (env : Services)
    (user_id : ℕ) (now : ℕ) : WebSocketState :=
  let s1 : WebSocketState := { s with connections := updFn s.connections user_id none }
  match s1.user_connections user_id with
  | none => s1
  | some conn_info =>
    let s2 : WebSocketState :=
      { s1 with user_connections := updFn s1.user_connections user_id none }
    match env.get_user_by_id user_id with
    | none => s2
    | some user_summary =>
      conn_info.subscribed_projects.foldl
        (fun st project_id =>
          st.broadcast_to_project project_id
            (.UserLeft { user := user_summary, project_id := project_id, timestamp := now })
            (some user_id)) s2

/-- The `if let Some(conn_info) = user_connections.get_mut(&user_id)`
pattern from websocket/handler.rs: apply `f` to the user's
`ConnectionInfo` when one exists, otherwise do nothing. -/
def WebSocketState.modifyConnInfo (s : WebSocketState) (user_id : ℕ)
    (f : ConnectionInfo → ConnectionInfo) : WebSocketState :=
  { s with
    user_connections := fun u =>
      if u = user_id then (s.user_connections u).map f else s.user_connections u }

/-- The `WebSocketState::subscribe_to_project`: check membership (a DB error
propagates, a `false` answer becomes `Forbidden`), insert the project
into the user's subscription set if the user has a `ConnectionInfo`,
broadcast `UserJoined` to the project's other subscribers when the user
lookup succeeds, then send `SubscriptionSuccess` to the user. -/
def WebSocketState.subscribe_to_project (s : WebSocketState) (env : Services)
    (user_id : ℕ) (project_id : ℕ) (now : ℕ) : Except AppError WebSocketState :=
  match env.is_project_member project_id user_id with
  | .error e => .error e
  | .ok false => .error (.Forbidden "Not a project member")
  | .ok true =>
    let s1 := s.modifyConnInfo user_id (fun ci => ci.subscribe_to_project project_id now)
    let s2 : WebSocketState :=
      match env.get_user_by_id user_id with
      | some user_summary =>
        s1.broadcast_to_project project_id
          (.UserJoined { user := user_summary, project_id := project_id, timestamp := now })
          (some user_id)
      | none => s1
    .ok (s2.send_to_user user_id (.SubscriptionSuccess project_id))

/-- The `WebSocketState::unsubscribe_from_project`: remove the project from
the user's subscription set if the user has a `ConnectionInfo`, then —
whenever the user lookup succeeds, and regardless of whether the user
was subscribed — broadcast `UserLeft` to the project's subscribers. -/
def WebSocketState.unsubscribe_from_project (s : WebSocketState) (env : Services)
    (user_id : ℕ) (project_id : ℕ) (now : ℕ) : WebSocketState :=
  let s1 := s.modifyConnInfo user_id (fun ci => ci.unsubscribe_from_project project_id now)
  match env.get_user_by_id user_id with
  | some user_summary =>
    s1.broadcast_to_project project_id
      (.UserLeft { user := user_summary, project_id := project_id, timestamp := now })
      (some user_id)
  | none => s1

/-- An inbound frame as seen by `handle_message` in websocket/handler.rs.
A `Message::Text` frame carries the result of `serde_json::from_str`:
`text (some e)` is a well-formed frame decoding to `e`, `text none` is a
malformed frame (decode error). -/
inductive SocketMessage where
  | text (decoded : Option WebSocketEvent)
  | close
  | ping
  | pong
deriving DecidableEq

/-- The `handle_event` from websocket/handler.rs: dispatch one decoded client
event.  `Subscribe` delegates to `subscribe_to_project` and propagates
its error; `Unsubscribe` delegates to `unsubscribe_from_project`;
typing indicators are relayed to the project's other subscribers;
`Pong` refreshes `last_seen`; every other variant is ignored
(logged as unexpected) and returns `Ok` with the state untouched. -/
def handle_event (env : Services) (event : WebSocketEvent) (user_id : ℕ)
    (now : ℕ) (s : WebSocketState) : Except AppError WebSocketState :=
  match event with
  | .Subscribe project_id => s.subscribe_to_project env user_id project_id now
  | .Unsubscribe project_id => .ok (s.unsubscribe_from_project env user_id project_id now)
  | .UserTyping typing_data =>
    .ok (s.broadcast_to_project typing_data.project_id (.UserTyping typing_data) (some user_id))
  | .UserStoppedTyping typing_data =>
    .ok (s.broadcast_to_project typing_data.project_id (.UserStoppedTyping typing_data) (some user_id))
  | .Pong => .ok (s.modifyConnInfo user_id (fun ci => ci.update_last_seen now))
  | _ => .ok s

/-- The `handle_message` from websocket/handler.rs: a malformed text frame is
a `BadRequest` error, a well-formed one goes to `handle_event`, a close
frame is a `BadRequest` error, ping is a no-op, pong refreshes
`last_seen`. -/
def handle_message (env : Services) (msg : SocketMessage) (user_id : ℕ)
    (now : ℕ) (s : WebSocketState) : Except AppError WebSocketState :=
  match msg with
  | .text none => .error (.BadRequest "Invalid message format")
  | .text (some event) => handle_event env event user_id now s
  | .close => .error (.BadRequest "Connection closed")
  | .ping => .ok s
  | .pong => .ok (s.modifyConnInfo user_id (fun ci => ci.update_last_seen now))

/-- The `authenticate_connection` from websocket/handler.rs: missing token,
failed JWT verification and an unparsable `sub` claim each yield an
`Unauthorized` error. -/
def authenticate_connection (env : Services) (token : Option String) :
    Except AppError ℕ :=
  match token with
  | none => .error (.Unauthorized "No token provided")
  | some t =>
    match env.verify_token t with
    | none => .error (.Unauthorized "Invalid token")
    | some sub =>
      match env.parse_uuid sub with
      | none => .error (.Unauthorized "Invalid user ID in token")
      | some user_id => .ok user_id

/-- The inbound loop of `handle_socket`: process frames in order; a
socket read error (`none` in the stream) or an error from
`handle_message` breaks the loop, leaving the state as it was at that
point.  Each frame is stamped with its own clock value. -/
def run_inbound (env : Services) (user_id : ℕ) :
    List (Option SocketMessage × ℕ) → WebSocketState → WebSocketState
  | [], s => s
  | (none, _) :: _, s => s
  | (some m, now) :: rest, s =>
    match handle_message env m user_id now s with
    | .error _ => s
    | .ok s1 => run_inbound env user_id rest s1

/-- The `handle_socket` from websocket/handler.rs: authenticate; on failure
send `AuthenticationError` on the socket and terminate without
registering; on success send `AuthenticationSuccess`, register the
connection, run the inbound loop over the frame stream, then run the
cleanup (`unregister_connection`).  Returns the final shared state and
the messages written directly to this socket (not through the channel). -/
def handle_socket (env : Services) (token : Option String)
    (msgs : List (Option SocketMessage × ℕ)) (s : WebSocketState) (now : ℕ) :
    WebSocketState × List WebSocketEvent :=
  match authenticate_connection env token with
  | .error e => (s, [.AuthenticationError e.toMessage])
  | .ok user_id =>
    let s1 := s.register_connection user_id now
    let s2 := run_inbound env user_id msgs s1
    (s2.unregister_connection env user_id now, [.AuthenticationSuccess user_id])

/-- One state-mutating operation of the websocket layer, at the
granularity the spec's invariants quantify over. -/
inductive SessionOp where
  | register (user_id : ℕ) (now : ℕ)
  | unregister (user_id : ℕ) (now : ℕ)
  | subscribe (user_id : ℕ) (project_id : ℕ) (now : ℕ)
  | unsubscribe (user_id : ℕ) (project_id : ℕ) (now : ℕ)
  | msg (user_id : ℕ) (m : SocketMessage) (now : ℕ)
  | broadcast (project_id : ℕ) (event : WebSocketEvent) (exclude_user : Option ℕ)
  | send (user_id : ℕ) (event : WebSocketEvent)

/-- Apply one operation.  A failing `subscribe` or `msg` leaves the
state unchanged (the caller only breaks its loop). -/
def applyOp (env : Services) (s : WebSocketState) : SessionOp → WebSocketState
  | .register u now => s.register_connection u now
  | .unregister u now => s.unregister_connection env u now
  | .subscribe u p now =>
    match s.subscribe_to_project env u p now with
    | .ok s1 => s1
    | .error _ => s
  | .unsubscribe u p now => s.unsubscribe_from_project env u p now
  | .msg u m now =>
    match handle_message env m u now s with
    | .ok s1 => s1
    | .error _ => s
  | .broadcast p e ex => s.broadcast_to_project p e ex
  | .send u e => s.send_to_user u e

/-- Apply a sequence of operations from left to right. -/
def applyOps (env : Services) (ops : List SessionOp) (s : WebSocketState) :
    WebSocketState :=
  ops.foldl (applyOp env) s

/-- A delivery-only operation: `send_to_user` or `broadcast_to_project`
(the interface the CRUD layer calls). -/
inductive DeliveryOp where
  | send (user_id : ℕ) (event : WebSocketEvent)
  | broadcast (project_id : ℕ) (event : WebSocketEvent) (exclude_user : Option ℕ)

/-- Apply a sequence of delivery operations from left to right. -/
def applyDeliveries (l : List DeliveryOp) (s : WebSocketState) : WebSocketState :=
  l.foldl
    (fun st op =>
      match op with
      | .send u e => st.send_to_user u e
      | .broadcast p e ex => st.broadcast_to_project p e ex) s

/-- Whether the state currently records user `u` as subscribed to
project `p` (a `ConnectionInfo` exists and contains `p`). -/
def subscribedTo (s : WebSocketState) (u : ℕ) (p : ℕ) : Bool :=
  match s.user_connections u with
  | some ci => ci.is_subscribed_to p
  | none => false

/-- Count of `UserLeft` events for project `p` in a queue. -/
def countUserLeft (q : List WebSocketEvent) (p : ℕ) : ℕ :=
  q.countP (fun e =>
    match e with
    | .UserLeft d => d.project_id == p
    | _ => false)

/-- Count of `UserJoined` events carrying user summary `su` and project
`p` in a queue (timestamps are not compared). -/
def countUserJoined (q : List WebSocketEvent) (su : UserSummary) (p : ℕ) : ℕ :=
  q.countP (fun e =>
    match e with
    | .UserJoined d => decide (d.user = su) && d.project_id == p
    | _ => false)

/-- Count of `SubscriptionSuccess` events in a queue. -/
def countSubscriptionSuccess (q : List WebSocketEvent) : ℕ :=
  q.countP (fun e =>
    match e with
    | .SubscriptionSuccess _ => true
    | _ => false)

/-- The `subscribe_to_project` as a total state transformer: the state it
returns on success, the unchanged state on error (the session loop only
breaks on the error). -/
def subscribeStep (env : Services) (s : WebSocketState) (user_id : ℕ)
    (project_id : ℕ) (now : ℕ) : WebSocketState :=
  match s.subscribe_to_project env user_id project_id now with
  | .ok s1 => s1
  | .error _ => s

/-- The event variants that the server sends to clients and never
expects from a client: everything except `Authenticate`, `Subscribe`,
`Unsubscribe`, `UserTyping`, `UserStoppedTyping` and `Pong`. -/
def serverOnlyEvent : WebSocketEvent → Bool
  | .AuthenticationSuccess _ => true
  | .AuthenticationError _ => true
  | .SubscriptionSuccess _ => true
  | .SubscriptionError _ => true
  | .TaskCreated _ => true
  | .TaskUpdated _ => true
  | .TaskDeleted _ _ => true
  | .TaskMoved _ => true
  | .BoardCreated _ => true
  | .BoardUpdated _ => true
  | .BoardDeleted _ _ => true
  | .CommentCreated _ => true
  | .CommentDeleted _ _ _ => true
  | .UserJoined _ => true
  | .UserLeft _ => true
  | .Error _ => true
  | _ => false

/-- A concrete user summary (user 0), used in concrete scenarios. -/
def summ0 : UserSummary :=
  { id := 0, username := "alice", display_name := "Alice", avatar_url := none }

/-- A concrete user summary (user 1), used in concrete scenarios. -/
def summ1 : UserSummary :=
  { id := 1, username := "bob", display_name := "Bob", avatar_url := none }

/-- Concrete collaborators: every user is a member of every project,
users 0 and 1 exist in the database, token verification always fails. -/
def env0 : Services :=
  { is_project_member := fun _ _ => .ok true,
    get_user_by_id := fun uid =>
      if uid = 0 then some summ0 else if uid = 1 then some summ1 else none,
    verify_token := fun _ => none,
    parse_uuid := fun _ => none }

/-- Concrete collaborators where the membership oracle answers `false`
for everyone, token verification succeeds and the token parses to
user 0. -/
def envNotMember : Services :=
  { is_project_member := fun _ _ => .ok false,
    get_user_by_id := fun uid =>
      if uid = 0 then some summ0 else if uid = 1 then some summ1 else none,
    verify_token := fun t => some t,
    parse_uuid := fun _ => some 0 }

/-- Concrete state: user 0 is registered with an empty queue and no
subscriptions; user 1 is registered with an empty queue and is
subscribed to project 5. -/
def stateAB : WebSocketState :=
  { connections := fun u => if u = 0 then some [] else if u = 1 then some [] else none,
    user_connections := fun u =>
      if u = 0 then some { user_id := 0, subscribed_projects := [], last_seen := 0 }
      else if u = 1 then some { user_id := 1, subscribed_projects := [5], last_seen := 0 }
      else none }

/-- Concrete state: user 0 registered and subscribed to projects 10 and
20; user 1 registered, empty queue, subscribed to project 10; user 2
registered, empty queue, subscribed to projects 10 and 20. -/
def stateDisc : WebSocketState :=
  { connections := fun u =>
      if u = 0 then some [] else if u = 1 then some [] else if u = 2 then some [] else none,
    user_connections := fun u =>
      if u = 0 then some { user_id := 0, subscribed_projects := [10, 20], last_seen := 0 }
      else if u = 1 then some { user_id := 1, subscribed_projects := [10], last_seen := 0 }
      else if u = 2 then some { user_id := 2, subscribed_projects := [10, 20], last_seen := 0 }
      else none }

/-! ## Shared lemmas about the operations -/

/-- The `broadcast_to_project` never touches `user_connections`. -/
theorem broadcast_user_connections_eq (s : WebSocketState) (p : ℕ)
    (e : WebSocketEvent) (ex : Option ℕ) :
    (s.broadcast_to_project p e ex).user_connections = s.user_connections := rfl

/-- Pointwise characterisation of `broadcast_to_project`: user `u`'s
channel gains `e` exactly when `u` is not excluded and is subscribed to
`p`; a user without a channel receives nothing (`Option.map`). -/
theorem broadcast_connections_eq (s : WebSocketState) (p : ℕ)
    (e : WebSocketEvent) (ex : Option ℕ) (u : ℕ) :
    (s.broadcast_to_project p e ex).connections u =
      if ex ≠ some u ∧ subscribedTo s u p = true then
        (s.connections u).map (fun q => q ++ [e])
      else s.connections u := by
  show (match s.user_connections u with
    | none => s.connections u
    | some conn_info =>
      if ex = some u then s.connections u
      else if conn_info.is_subscribed_to p then
        match s.connections u with
        | some q => some (q ++ [e])
        | none => none
      else s.connections u) = _
  cases h : s.user_connections u with
  | none => simp [subscribedTo, h]
  | some ci =>
    by_cases hex : ex = some u
    · simp [subscribedTo, h, hex]
    · by_cases hsub : ci.is_subscribed_to p
      · cases hc : s.connections u <;> simp [subscribedTo, h, hex, hsub, hc]
      · simp [subscribedTo, h, hex, hsub]

/-- The `send_to_user` never touches `user_connections`. -/
theorem send_to_user_user_connections_eq (s : WebSocketState) (u : ℕ)
    (e : WebSocketEvent) :
    (s.send_to_user u e).user_connections = s.user_connections := by
  unfold WebSocketState.send_to_user
  cases s.connections u <;> rfl

/-- The `send_to_user u` leaves every other user's channel unchanged. -/
theorem send_to_user_connections_other (s : WebSocketState) (u : ℕ)
    (e : WebSocketEvent) (v : ℕ) (hv : v ≠ u) :
    (s.send_to_user u e).connections v = s.connections v := by
  unfold WebSocketState.send_to_user
  cases s.connections u <;> simp [updFn, hv]

/-- The `send_to_user u` appends the event to `u`'s queue when `u` has a
channel. -/
theorem send_to_user_connections_self (s : WebSocketState) (u : ℕ)
    (e : WebSocketEvent) (q : List WebSocketEvent) (hq : s.connections u = some q) :
    (s.send_to_user u e).connections u = some (q ++ [e]) := by
  unfold WebSocketState.send_to_user
  rw [hq]
  simp [updFn]

/-- A user with no channel still has none after any `send_to_user`. -/
theorem send_to_user_preserves_none (s : WebSocketState) (v : ℕ)
    (e : WebSocketEvent) (u : ℕ) (h : s.connections u = none) :
    (s.send_to_user v e).connections u = none := by
  unfold WebSocketState.send_to_user
  cases hv : s.connections v with
  | none => exact h
  | some q =>
    simp only [updFn]
    by_cases huv : u = v
    · rw [huv] at h; rw [h] at hv; exact absurd hv (by simp)
    · simp [huv, h]

/-- A user with no channel still has none after any broadcast. -/
theorem broadcast_preserves_none (s : WebSocketState) (p : ℕ)
    (e : WebSocketEvent) (ex : Option ℕ) (u : ℕ) (h : s.connections u = none) :
    (s.broadcast_to_project p e ex).connections u = none := by
  rw [broadcast_connections_eq]
  split <;> simp [h]

/-- The `UserLeft` fan-out loop of `unregister_connection` preserves the
absence of a channel. -/
theorem foldl_userleft_preserves_none (summary : UserSummary) (uid now u : ℕ) :
    ∀ (l : List ℕ) (s : WebSocketState), s.connections u = none →
      ((l.foldl
        (fun st project_id =>
          st.broadcast_to_project project_id
            (.UserLeft { user := summary, project_id := project_id, timestamp := now })
            (some uid)) s).connections u = none)
  | [], _, h => h
  | p :: rest, s, h =>
    foldl_userleft_preserves_none summary uid now u rest _
      (broadcast_preserves_none s p _ (some uid) u h)

/-- After `unregister_connection u`, user `u` has no channel. -/
theorem unregister_connections_self (s : WebSocketState) (env : Services)
    (u now : ℕ) : (s.unregister_connection env u now).connections u = none := by
  unfold WebSocketState.unregister_connection
  cases h : s.user_connections u with
  | none => simp [h, updFn]
  | some ci =>
    simp only [h, updFn, if_pos rfl]
    cases env.get_user_by_id u with
    | none => simp [updFn]
    | some summary =>
      exact foldl_userleft_preserves_none summary u now u _ _ (by simp [updFn])

/-- Delivery operations (`send_to_user` / `broadcast_to_project`) never
create a channel: a user with no channel still has none after any
sequence of them. -/
theorem applyDeliveries_preserves_none (u : ℕ) :
    ∀ (l : List DeliveryOp) (s : WebSocketState), s.connections u = none →
      (applyDeliveries l s).connections u = none
  | [], _, h => h
  | .send v e :: rest, s, h =>
    applyDeliveries_preserves_none u rest _ (send_to_user_preserves_none s v e u h)
  | .broadcast p e ex :: rest, s, h =>
    applyDeliveries_preserves_none u rest _ (broadcast_preserves_none s p e ex u h)

/-- Inserting `p` makes it a member of the subscription set. -/
theorem subscribe_to_project_mem (ci : ConnectionInfo) (p now : ℕ) :
    p ∈ (ci.subscribe_to_project p now).subscribed_projects := by
  unfold ConnectionInfo.subscribe_to_project
  by_cases h : p ∈ ci.subscribed_projects <;> simp [h]

/-- Inserting an already-present project does not change the set. -/
theorem subscribe_to_project_mem_eq (ci : ConnectionInfo) (p now : ℕ)
    (h : p ∈ ci.subscribed_projects) :
    (ci.subscribe_to_project p now).subscribed_projects = ci.subscribed_projects := by
  simp [ConnectionInfo.subscribe_to_project, h]

/-- If the set held at most one copy of `p`, after inserting `p` it
holds exactly one. -/
theorem subscribe_to_project_count (ci : ConnectionInfo) (p now : ℕ)
    (h : ci.subscribed_projects.count p ≤ 1) :
    (ci.subscribe_to_project p now).subscribed_projects.count p = 1 := by
  unfold ConnectionInfo.subscribe_to_project
  by_cases hm : p ∈ ci.subscribed_projects
  · have h1 : 1 ≤ ci.subscribed_projects.count p := List.one_le_count_iff.mpr hm
    simp only [hm, if_pos]
    omega
  · have h0 : ci.subscribed_projects.count p = 0 := List.count_eq_zero.mpr hm
    simp [hm, List.count_append, h0]

/-- The `modifyConnInfo` never touches channels. -/
theorem modifyConnInfo_connections (s : WebSocketState) (u : ℕ)
    (f : ConnectionInfo → ConnectionInfo) :
    (s.modifyConnInfo u f).connections = s.connections := rfl

/-- The `modifyConnInfo u` leaves other users' `ConnectionInfo` unchanged. -/
theorem modifyConnInfo_user_connections_other (s : WebSocketState) (u : ℕ)
    (f : ConnectionInfo → ConnectionInfo) (v : ℕ) (hv : v ≠ u) :
    (s.modifyConnInfo u f).user_connections v = s.user_connections v := by
  simp [WebSocketState.modifyConnInfo, hv]

/-- The `modifyConnInfo u` maps `f` over `u`'s own `ConnectionInfo`. -/
theorem modifyConnInfo_user_connections_self (s : WebSocketState) (u : ℕ)
    (f : ConnectionInfo → ConnectionInfo) :
    (s.modifyConnInfo u f).user_connections u = (s.user_connections u).map f := by
  simp [WebSocketState.modifyConnInfo]

/-- When membership holds, `subscribe_to_project` succeeds and equals
its total version `subscribeStep`. -/
theorem subscribe_to_project_ok (env : Services) (s : WebSocketState)
    (u p now : ℕ) (hm : env.is_project_member p u = .ok true) :
    s.subscribe_to_project env u p now = .ok (subscribeStep env s u p now) := by
  unfold subscribeStep WebSocketState.subscribe_to_project
  rw [hm]

/-- Effect of a successful subscribe on `user_connections`. -/
theorem subscribeStep_user_connections (env : Services) (s : WebSocketState)
    (u p now : ℕ) (hm : env.is_project_member p u = .ok true) (v : ℕ) :
    (subscribeStep env s u p now).user_connections v =
      if v = u then (s.user_connections v).map (fun ci => ci.subscribe_to_project p now)
      else s.user_connections v := by
  unfold subscribeStep WebSocketState.subscribe_to_project
  rw [hm]
  simp only
  cases env.get_user_by_id u <;>
    simp [send_to_user_user_connections_eq, broadcast_user_connections_eq,
      WebSocketState.modifyConnInfo]

/-- Effect of a successful subscribe on the subscriber's own channel:
exactly one `SubscriptionSuccess` is appended (the `UserJoined`
broadcast excludes the subscriber). -/
theorem subscribeStep_connections_self (env : Services) (s : WebSocketState)
    (u p now : ℕ) (qU : List WebSocketEvent)
    (hm : env.is_project_member p u = .ok true) (hq : s.connections u = some qU) :
    (subscribeStep env s u p now).connections u =
      some (qU ++ [.SubscriptionSuccess p]) := by
  unfold subscribeStep WebSocketState.subscribe_to_project
  rw [hm]
  simp only
  cases env.get_user_by_id u with
  | none => exact send_to_user_connections_self _ u _ qU hq
  | some summary =>
    apply send_to_user_connections_self
    rw [broadcast_connections_eq]
    simp [modifyConnInfo_connections, hq]

/-- Effect of a successful subscribe on another registered user's
channel: one `UserJoined` is appended exactly when that user is
subscribed to the project. -/
theorem subscribeStep_connections_other (env : Services) (s : WebSocketState)
    (u p now B : ℕ) (qB : List WebSocketEvent) (ciB : ConnectionInfo)
    (summary : UserSummary)
    (hm : env.is_project_member p u = .ok true)
    (hg : env.get_user_by_id u = some summary)
    (hB : B ≠ u) (hqB : s.connections B = some qB)
    (hciB : s.user_connections B = some ciB) :
    (subscribeStep env s u p now).connections B =
      some (if ciB.is_subscribed_to p then
              qB ++ [.UserJoined { user := summary, project_id := p, timestamp := now }]
            else qB) := by
  unfold subscribeStep WebSocketState.subscribe_to_project
  rw [hm]
  simp only [hg]
  rw [send_to_user_connections_other _ _ _ _ hB, broadcast_connections_eq]
  have hsub : subscribedTo (s.modifyConnInfo u (fun ci => ci.subscribe_to_project p now)) B p
      = ciB.is_subscribed_to p := by
    simp [subscribedTo, modifyConnInfo_user_connections_other _ _ _ _ hB, hciB]
  have hcB : (s.modifyConnInfo u (fun ci => ci.subscribe_to_project p now)).connections B
      = some qB := hqB
  by_cases h : ciB.is_subscribed_to p
  · simp [hsub, h, hcB, Ne.symm hB]
  · simp [hsub, h, hcB]

/-! ## Claim theorems -/

/-- Claim C1: for every state, project `P`, event `E` and user `U`,
`broadcast_to_project P E (some U)` delivers `E` to exactly the users
that hold a registered channel (`connections u = some q`), are
subscribed to `P` at call time (`subscribedTo`), and are different from
`U`: such a user's queue becomes `q ++ [E]`, every other user's channel
is unchanged, and a user with no channel receives nothing (the
`Option.map` is `none` on `none`).  In particular `U` itself never
receives `E`. -/
theorem broadcast_to_project_delivery (s : WebSocketState) (P : ℕ)
    (E : WebSocketEvent) (U u : ℕ) :
    (s.broadcast_to_project P E (some U)).connections u =
      if u ≠ U ∧ subscribedTo s u P = true then
        (s.connections u).map (fun q => q ++ [E])
      else s.connections u := by
  rw [broadcast_connections_eq]
  by_cases hU : u = U
  · subst hU; simp
  · by_cases hc : subscribedTo s u P = true <;>
      simp [hU, hc, Ne.symm hU]

/-- Claim C8: after `unregister_connection u`, user `u`'s channel is
gone, and it stays gone under every subsequent sequence of
`send_to_user` / `broadcast_to_project` calls, so none of them can
deliver any event to `u` until `u` registers again (delivery appends to
the channel's queue, and there is no channel). -/
theorem after_unregister_no_delivery (env : Services) (s : WebSocketState)
    (u now : ℕ) (l : List DeliveryOp) :
    (applyDeliveries l (s.unregister_connection env u now)).connections u = none :=
  applyDeliveries_preserves_none u l _ (unregister_connections_self s env u now)

/-- Claim C6: whenever authentication fails (absent, invalid or expired
credential — any `error` outcome of `authenticate_connection`),
`handle_socket` sends exactly one `AuthenticationError` on the socket
and terminates with the shared state untouched: no connection is
registered, and the result does not depend on the inbound frames
`msgs`, so no client message (including an immediately sent `Subscribe`)
is ever processed. -/
theorem auth_failure_no_register (env : Services) (token : Option String)
    (msgs : List (Option SocketMessage × ℕ)) (s : WebSocketState) (now : ℕ)
    (e : AppError) (h : authenticate_connection env token = .error e) :
    handle_socket env token msgs s now = (s, [.AuthenticationError e.toMessage]) := by
  unfold handle_socket
  rw [h]

/-- Witness for C6: a connection with a bad credential, sending a
`Subscribe` immediately, gets exactly one `AuthenticationError` and the
state is untouched. -/
theorem auth_failure_no_register_witness :
    handle_socket env0 (some "expired") [(some (.text (some (.Subscribe 5))), 1)] stateAB 0 =
      (stateAB, [.AuthenticationError (AppError.Unauthorized "Invalid token").toMessage]) :=
  auth_failure_no_register env0 (some "expired") _ stateAB 0
    (.Unauthorized "Invalid token") rfl

/-- Claim C10: a well-formed frame decoding to a server-to-client-only
event variant (`TaskCreated`, `AuthenticationSuccess`, `UserJoined`,
`Error`, ...) is ignored by `handle_event`: it returns `Ok` with the
state — both maps — unchanged and emits nothing. -/
theorem server_only_events_ignored (env : Services) (e : WebSocketEvent)
    (u now : ℕ) (s : WebSocketState) (h : serverOnlyEvent e = true) :
    handle_event env e u now s = .ok s := by
  cases e <;> simp_all [serverOnlyEvent, handle_event]

/-- Witness for C10: a client-sent `Error` event is ignored. -/
theorem server_only_events_ignored_witness :
    handle_event env0 (.Error "boom") 0 3 stateAB = .ok stateAB :=
  server_only_events_ignored env0 (.Error "boom") 0 3 stateAB rfl

/-- Claim C9: subscribing is idempotent on the subscription state.  For
a registered user `u` (whose set holds at most one copy of `p`, as every
reachable set does) a successful subscribe leaves exactly one entry for
`p`, applying the set-mutation a second time yields the same set, and
the call appends exactly one `SubscriptionSuccess` — hence at most one —
to `u`'s own channel (the `UserJoined` broadcast excludes `u`). -/
theorem subscribe_idempotent (env : Services) (s : WebSocketState) (u p now : ℕ)
    (qU : List WebSocketEvent) (ci : ConnectionInfo)
    (hci : s.user_connections u = some ci)
    (hcount : ci.subscribed_projects.count p ≤ 1)
    (hm : env.is_project_member p u = .ok true)
    (hq : s.connections u = some qU) :
    s.subscribe_to_project env u p now = .ok (subscribeStep env s u p now) ∧
    (subscribeStep env s u p now).connections u = some (qU ++ [.SubscriptionSuccess p]) ∧
    (subscribeStep env s u p now).user_connections u = some (ci.subscribe_to_project p now) ∧
    (ci.subscribe_to_project p now).subscribed_projects.count p = 1 ∧
    ∀ t2, ((ci.subscribe_to_project p now).subscribe_to_project p t2).subscribed_projects =
      (ci.subscribe_to_project p now).subscribed_projects := by
  refine ⟨subscribe_to_project_ok env s u p now hm,
    subscribeStep_connections_self env s u p now qU hm hq, ?_,
    subscribe_to_project_count ci p now hcount,
    fun t2 => subscribe_to_project_mem_eq _ _ _ (subscribe_to_project_mem ci p now)⟩
  rw [subscribeStep_user_connections env s u p now hm u]
  simp [hci]

/-- Witness for C9: user 0 subscribes to project 5 in `stateAB`. -/
theorem subscribe_idempotent_witness :
    stateAB.subscribe_to_project env0 0 5 3 = .ok (subscribeStep env0 stateAB 0 5 3) ∧
    (subscribeStep env0 stateAB 0 5 3).connections 0 = some ([] ++ [.SubscriptionSuccess 5]) ∧
    (subscribeStep env0 stateAB 0 5 3).user_connections 0 =
      some (ConnectionInfo.subscribe_to_project ⟨0, [], 0⟩ 5 3) ∧
    (ConnectionInfo.subscribe_to_project ⟨0, [], 0⟩ 5 3).subscribed_projects.count 5 = 1 ∧
    ((ConnectionInfo.subscribe_to_project ⟨0, [], 0⟩ 5 3).subscribe_to_project 5 9).subscribed_projects =
      (ConnectionInfo.subscribe_to_project ⟨0, [], 0⟩ 5 3).subscribed_projects := by
  have h := subscribe_idempotent env0 stateAB 0 5 3 [] ⟨0, [], 0⟩ rfl (by decide) rfl rfl
  exact ⟨h.1, h.2.1, h.2.2.1, h.2.2.2.1, h.2.2.2.2 9⟩

/-- Counterexample to claim C2 as stated: in `stateAB` with a membership
oracle answering `false`, an authenticated session (user 0) that sends
`Subscribe 5` does NOT receive a `SubscriptionError`, does NOT stay
open, and cleanup IS triggered: after `handle_socket` runs, user 0's
channel has been unregistered (`none`), the only message written to the
socket is the `AuthenticationSuccess`, and no `SubscriptionError` was
delivered to anyone (user 1's queue is still empty). -/
theorem subscribe_forbidden_cex :
    (handle_socket envNotMember (some "tok")
        [(some (.text (some (.Subscribe 5))), 1)] stateAB 0).1.connections 0 = none ∧
    (handle_socket envNotMember (some "tok")
        [(some (.text (some (.Subscribe 5))), 1)] stateAB 0).2 = [.AuthenticationSuccess 0] ∧
    (handle_socket envNotMember (some "tok")
        [(some (.text (some (.Subscribe 5))), 1)] stateAB 0).1.connections 1 = some [] := by
  decide

/-- Claim C2 amended: when the membership check answers `false`,
`subscribe_to_project` returns `Forbidden` without emitting any message
(no `SubscriptionError` is ever constructed on this path), and the
session's inbound loop treats the error as fatal: the loop stops at that
frame with the shared state unchanged, after which `handle_socket` runs
the cleanup (`unregister_connection`) — the connection does not stay
open. -/
theorem subscribe_forbidden_is_fatal (env : Services) (s : WebSocketState)
    (u p now : ℕ) (rest : List (Option SocketMessage × ℕ))
    (hm : env.is_project_member p u = .ok false) :
    s.subscribe_to_project env u p now = .error (.Forbidden "Not a project member") ∧
    run_inbound env u ((some (.text (some (.Subscribe p))), now) :: rest) s = s := by
  have hsub : s.subscribe_to_project env u p now = .error (.Forbidden "Not a project member") := by
    unfold WebSocketState.subscribe_to_project
    rw [hm]
  refine ⟨hsub, ?_⟩
  show (match s.subscribe_to_project env u p now with
    | .error _ => s
    | .ok s1 => run_inbound env u rest s1) = s
  rw [hsub]

/-- Witness for the amended C2: user 0 in `stateAB` under the
all-`false` membership oracle. -/
theorem subscribe_forbidden_is_fatal_witness :
    stateAB.subscribe_to_project envNotMember 0 5 1 =
      .error (.Forbidden "Not a project member") ∧
    run_inbound envNotMember 0 [(some (.text (some (.Subscribe 5))), 1)] stateAB = stateAB :=
  subscribe_forbidden_is_fatal envNotMember stateAB 0 5 1 [] rfl

/-- Counterexample to claim C3 as stated: in `stateAB` (user 1
subscribed to project 5 and watching), user 0 subscribes to project 5
twice; user 0's set does end up with exactly one entry, but user 1
receives TWO `UserJoined` events for user 0, not one. -/
theorem double_subscribe_cex :
    countUserJoined (((subscribeStep env0 (subscribeStep env0 stateAB 0 5 1) 0 5 2).connections 1).getD [])
      summ0 5 = 2 ∧
    ((subscribeStep env0 (subscribeStep env0 stateAB 0 5 1) 0 5 2).user_connections 0).map
      (fun ci => ci.subscribed_projects) = some [5] := by
  decide

/-- Claim C3 amended: a second successful `Subscribe{P}` still leaves
the subscriber's set with exactly one entry for `P`, but every other
subscribed user `B` receives one `UserJoined` per successful call —
two across the two calls, because `subscribe_to_project` broadcasts
`UserJoined` unconditionally, not only on first insertion. -/
theorem double_subscribe_effects (env : Services) (s : WebSocketState)
    (A P t1 t2 B : ℕ) (qB : List WebSocketEvent) (ciA ciB : ConnectionInfo)
    (summary : UserSummary)
    (hm : env.is_project_member P A = .ok true)
    (hg : env.get_user_by_id A = some summary)
    (hciA : s.user_connections A = some ciA)
    (hcount : ciA.subscribed_projects.count P ≤ 1)
    (hB : B ≠ A)
    (hqB : s.connections B = some qB)
    (hciB : s.user_connections B = some ciB)
    (hsubB : ciB.is_subscribed_to P = true) :
    (subscribeStep env (subscribeStep env s A P t1) A P t2).user_connections A =
      some ((ciA.subscribe_to_project P t1).subscribe_to_project P t2) ∧
    ((ciA.subscribe_to_project P t1).subscribe_to_project P t2).subscribed_projects.count P = 1 ∧
    (subscribeStep env (subscribeStep env s A P t1) A P t2).connections B =
      some (qB ++ [.UserJoined { user := summary, project_id := P, timestamp := t1 },
                   .UserJoined { user := summary, project_id := P, timestamp := t2 }]) ∧
    countUserJoined (((subscribeStep env (subscribeStep env s A P t1) A P t2).connections B).getD [])
        summary P = countUserJoined qB summary P + 2 := by
  have h1u : (subscribeStep env s A P t1).user_connections A =
      some (ciA.subscribe_to_project P t1) := by
    rw [subscribeStep_user_connections env s A P t1 hm A]
    simp [hciA]
  have h1B : (subscribeStep env s A P t1).user_connections B = some ciB := by
    rw [subscribeStep_user_connections env s A P t1 hm B]
    simp [hB, hciB]
  have h1q : (subscribeStep env s A P t1).connections B =
      some (qB ++ [.UserJoined { user := summary, project_id := P, timestamp := t1 }]) := by
    rw [subscribeStep_connections_other env s A P t1 B qB ciB summary hm hg hB hqB hciB, hsubB]
    simp
  have h2u : (subscribeStep env (subscribeStep env s A P t1) A P t2).user_connections A =
      some ((ciA.subscribe_to_project P t1).subscribe_to_project P t2) := by
    rw [subscribeStep_user_connections env _ A P t2 hm A]
    simp [h1u]
  have h2q : (subscribeStep env (subscribeStep env s A P t1) A P t2).connections B =
      some (qB ++ [.UserJoined { user := summary, project_id := P, timestamp := t1 },
                   .UserJoined { user := summary, project_id := P, timestamp := t2 }]) := by
    rw [subscribeStep_connections_other env _ A P t2 B _ ciB summary hm hg hB h1q h1B, hsubB]
    simp
  refine ⟨h2u, ?_, h2q, ?_⟩
  · rw [subscribe_to_project_mem_eq _ _ _ (subscribe_to_project_mem ciA P t1)]
    exact subscribe_to_project_count ciA P t1 hcount
  · rw [h2q]
    simp [countUserJoined, List.countP_append]

/-- Witness for the amended C3: user 0 subscribes twice to project 5 in
`stateAB`; user 1 gets both `UserJoined` events, user 0's set has one
entry. -/
theorem double_subscribe_effects_witness :
    (subscribeStep env0 (subscribeStep env0 stateAB 0 5 1) 0 5 2).user_connections 0 =
      some ((ConnectionInfo.subscribe_to_project ⟨0, [], 0⟩ 5 1).subscribe_to_project 5 2) ∧
    ((ConnectionInfo.subscribe_to_project ⟨0, [], 0⟩ 5 1).subscribe_to_project 5 2).subscribed_projects.count 5 = 1 ∧
    (subscribeStep env0 (subscribeStep env0 stateAB 0 5 1) 0 5 2).connections 1 =
      some ([] ++ [.UserJoined { user := summ0, project_id := 5, timestamp := 1 },
                   .UserJoined { user := summ0, project_id := 5, timestamp := 2 }]) ∧
    countUserJoined (((subscribeStep env0 (subscribeStep env0 stateAB 0 5 1) 0 5 2).connections 1).getD [])
        summ0 5 = countUserJoined [] summ0 5 + 2 :=
  double_subscribe_effects env0 stateAB 0 5 1 2 1 [] ⟨0, [], 0⟩ ⟨1, [5], 0⟩ summ0
    rfl rfl rfl (by decide) (by decide) rfl rfl (by decide)

/-- Counterexample to claim C4 as stated: in `stateAB`, user 0 is NOT
subscribed to project 5, yet `unsubscribe_from_project 0 5` broadcasts a
`UserLeft` presence event, which lands in subscriber 1's queue. -/
theorem unsubscribe_not_subscribed_cex :
    (stateAB.unsubscribe_from_project env0 0 5 7).connections 1 =
      some [.UserLeft { user := summ0, project_id := 5, timestamp := 7 }] ∧
    countUserLeft (((stateAB.unsubscribe_from_project env0 0 5 7).connections 1).getD []) 5 = 1 := by
  decide

/-- Claim C4 amended: unsubscribing from a project never subscribed to
produces no error (the operation is infallible) and leaves the user's
`subscribed_projects` set unchanged (only `last_seen` is refreshed), but
it is NOT silent: whenever the user lookup succeeds, a `UserLeft` for
`P` is still broadcast to `P`'s subscribers other than `U`. -/
theorem unsubscribe_not_subscribed_effects (env : Services) (s : WebSocketState)
    (u p now B : ℕ) (ci ciB : ConnectionInfo) (summary : UserSummary)
    (qB : List WebSocketEvent)
    (hci : s.user_connections u = some ci)
    (hnot : ci.is_subscribed_to p = false)
    (hg : env.get_user_by_id u = some summary)
    (hB : B ≠ u) (hqB : s.connections B = some qB)
    (hciB : s.user_connections B = some ciB) :
    (s.unsubscribe_from_project env u p now).user_connections u =
      some { ci with last_seen := now } ∧
    (s.unsubscribe_from_project env u p now).connections B =
      some (if ciB.is_subscribed_to p then
              qB ++ [.UserLeft { user := summary, project_id := p, timestamp := now }]
            else qB) := by
  have hfilter : ci.subscribed_projects.filter (fun q => q ≠ p) = ci.subscribed_projects := by
    apply List.filter_eq_self.mpr
    intro a ha
    have hmem : p ∉ ci.subscribed_projects := by
      simpa [ConnectionInfo.is_subscribed_to] using hnot
    simp only [decide_eq_true_eq]
    exact fun hap => hmem (hap ▸ ha)
  have hciU : ci.unsubscribe_from_project p now = { ci with last_seen := now } := by
    unfold ConnectionInfo.unsubscribe_from_project
    rw [hfilter]
  constructor
  · show (WebSocketState.unsubscribe_from_project s env u p now).user_connections u = _
    unfold WebSocketState.unsubscribe_from_project
    rw [hg]
    simp only [broadcast_user_connections_eq, modifyConnInfo_user_connections_self]
    rw [hci]
    simp [hciU]
  · unfold WebSocketState.unsubscribe_from_project
    rw [hg]
    simp only []
    rw [broadcast_connections_eq]
    have hsub : subscribedTo (s.modifyConnInfo u (fun x => x.unsubscribe_from_project p now)) B p
        = ciB.is_subscribed_to p := by
      simp [subscribedTo, modifyConnInfo_user_connections_other _ _ _ _ hB, hciB]
    have hcB : (s.modifyConnInfo u (fun x => x.unsubscribe_from_project p now)).connections B
        = some qB := hqB
    by_cases h : ciB.is_subscribed_to p
    · simp [hsub, h, hcB, Ne.symm hB]
    · simp [hsub, h, hcB]

/-- Witness for the amended C4: user 0 unsubscribes from project 5 it
never joined; user 1 (a subscriber of 5) still receives a `UserLeft`. -/
theorem unsubscribe_not_subscribed_effects_witness :
    (stateAB.unsubscribe_from_project env0 0 5 7).user_connections 0 =
      some { user_id := 0, subscribed_projects := [], last_seen := 7 } ∧
    (stateAB.unsubscribe_from_project env0 0 5 7).connections 1 =
      some (if ConnectionInfo.is_subscribed_to ⟨1, [5], 0⟩ 5 then
              [] ++ [.UserLeft { user := summ0, project_id := 5, timestamp := 7 }]
            else []) := by
  have h := unsubscribe_not_subscribed_effects env0 stateAB 0 5 7 1 ⟨0, [], 0⟩ ⟨1, [5], 0⟩
    summ0 [] rfl (by decide) rfl (by decide) rfl rfl
  exact h

/-- Effect of one broadcast on a registered observer `B`: the event is
appended exactly when `B` is subscribed (as a possibly-empty suffix). -/
theorem broadcast_queue_ite (s : WebSocketState) (p : ℕ) (e : WebSocketEvent)
    (u B : ℕ) (qB : List WebSocketEvent) (ciB : ConnectionInfo)
    (hB : B ≠ u) (hqB : s.connections B = some qB)
    (hciB : s.user_connections B = some ciB) :
    (s.broadcast_to_project p e (some u)).connections B =
      some (qB ++ if ciB.is_subscribed_to p then [e] else []) := by
  rw [broadcast_connections_eq]
  have hsub : subscribedTo s B p = ciB.is_subscribed_to p := by
    simp [subscribedTo, hciB]
  by_cases h : ciB.is_subscribed_to p <;> simp [hsub, h, hqB, Ne.symm hB]

/-- The `countUserLeft` of the one-element suffix produced by one step of
the cleanup loop. -/
theorem countUserLeft_suffix (qB : List WebSocketEvent) (summary : UserSummary)
    (now p0 p : ℕ) (b : Bool) :
    countUserLeft (qB ++ if b then
        [.UserLeft { user := summary, project_id := p0, timestamp := now }] else []) p =
      countUserLeft qB p + (if p = p0 ∧ b = true then 1 else 0) := by
  cases b with
  | false => simp [countUserLeft]
  | true =>
    by_cases hp : p = p0
    · subst hp
      simp [countUserLeft, List.countP_append, List.countP_cons]
    · simp [countUserLeft, List.countP_append, List.countP_cons, hp, Ne.symm hp]

/-- Claim C5: a disconnect cleanup (`unregister_connection`) for a user
subscribed to exactly the two distinct projects `p1` and `p2` removes
the user's channel and, for every other registered user `B`, appends to
`B`'s queue exactly one `UserLeft` for `p1` if `B` is subscribed to
`p1`, exactly one for `p2` if `B` is subscribed to `p2`, and no
`UserLeft` for any other project. -/
theorem unregister_userleft_counts (env : Services) (s : WebSocketState)
    (u now p1 p2 B : ℕ) (qB : List WebSocketEvent) (ci ciB : ConnectionInfo)
    (summary : UserSummary)
    (hci : s.user_connections u = some ci)
    (hsubs : ci.subscribed_projects = [p1, p2])
    (hp : p1 ≠ p2)
    (hg : env.get_user_by_id u = some summary)
    (hB : B ≠ u)
    (hqB : s.connections B = some qB)
    (hciB : s.user_connections B = some ciB) :
    (s.unregister_connection env u now).connections u = none ∧
    ∀ p, countUserLeft (((s.unregister_connection env u now).connections B).getD []) p =
      countUserLeft qB p +
        ((if (p = p1 ∧ ciB.is_subscribed_to p1 = true) then 1 else 0) +
         (if (p = p2 ∧ ciB.is_subscribed_to p2 = true) then 1 else 0)) := by
  refine ⟨unregister_connections_self s env u now, ?_⟩
  intro p
  have hstep : (s.unregister_connection env u now) =
      ([p1, p2].foldl
        (fun st project_id =>
          st.broadcast_to_project project_id
            (.UserLeft { user := summary, project_id := project_id, timestamp := now })
            (some u))
        { connections := updFn s.connections u none,
          user_connections := updFn s.user_connections u none }) := by
    show (match s.user_connections u with
      | none => ({ s with connections := updFn s.connections u none } : WebSocketState)
      | some conn_info =>
        match env.get_user_by_id u with
        | none =>
          ({ connections := updFn s.connections u none,
             user_connections := updFn s.user_connections u none } : WebSocketState)
        | some user_summary =>
          List.foldl
            (fun st project_id =>
              st.broadcast_to_project project_id
                (.UserLeft { user := user_summary, project_id := project_id, timestamp := now })
                (some u))
            ({ connections := updFn s.connections u none,
               user_connections := updFn s.user_connections u none } : WebSocketState)
            conn_info.subscribed_projects) = _
    simp only [hci, hg]
    rw [hsubs]
  set s2 : WebSocketState :=
    { connections := updFn s.connections u none,
      user_connections := updFn s.user_connections u none } with hs2
  have h2q : s2.connections B = some qB := by
    simp [hs2, updFn, hB, hqB]
  have h2u : s2.user_connections B = some ciB := by
    simp [hs2, updFn, hB, hciB]
  set ev1 : WebSocketEvent :=
    .UserLeft { user := summary, project_id := p1, timestamp := now } with hev1
  set ev2 : WebSocketEvent :=
    .UserLeft { user := summary, project_id := p2, timestamp := now } with hev2
  have h3q : (s2.broadcast_to_project p1 ev1 (some u)).connections B =
      some (qB ++ if ciB.is_subscribed_to p1 then [ev1] else []) :=
    broadcast_queue_ite s2 p1 ev1 u B qB ciB hB h2q h2u
  have h3u : (s2.broadcast_to_project p1 ev1 (some u)).user_connections B = some ciB := by
    rw [broadcast_user_connections_eq]
    exact h2u
  have h4q : ((s2.broadcast_to_project p1 ev1 (some u)).broadcast_to_project p2 ev2
        (some u)).connections B =
      some ((qB ++ if ciB.is_subscribed_to p1 then [ev1] else []) ++
        if ciB.is_subscribed_to p2 then [ev2] else []) :=
    broadcast_queue_ite _ p2 ev2 u B _ ciB hB h3q h3u
  rw [hstep]
  show countUserLeft ((((s2.broadcast_to_project p1 ev1 (some u)).broadcast_to_project
      p2 ev2 (some u)).connections B).getD []) p = _
  rw [h4q]
  simp only [Option.getD_some]
  rw [hev2, countUserLeft_suffix, hev1, countUserLeft_suffix, Nat.add_assoc]

/-- Witness for C5: user 0 (subscribed to projects 10 and 20)
disconnects from `stateDisc`; user 2 is subscribed to both projects. -/
theorem unregister_userleft_counts_witness :
    (stateDisc.unregister_connection env0 0 3).connections 0 = none ∧
    countUserLeft (((stateDisc.unregister_connection env0 0 3).connections 2).getD []) 10 = 1 ∧
    countUserLeft (((stateDisc.unregister_connection env0 0 3).connections 2).getD []) 20 = 1 ∧
    countUserLeft (((stateDisc.unregister_connection env0 0 3).connections 2).getD []) 99 = 0 := by
  have h := unregister_userleft_counts env0 stateDisc 0 3 10 20 2 []
    ⟨0, [10, 20], 0⟩ ⟨2, [10, 20], 0⟩ summ0 rfl rfl (by decide) rfl (by decide) rfl rfl
  refine ⟨h.1, ?_, ?_, ?_⟩
  · have h10 := h.2 10
    simpa using h10
  · have h20 := h.2 20
    simpa using h20
  · have h99 := h.2 99
    simpa using h99

/-- The C7 invariant: a channel is registered for `u` exactly when a
`ConnectionInfo` exists for `u`. -/
def registryAligned (s : WebSocketState) : Prop :=
  ∀ u, (s.connections u).isSome = (s.user_connections u).isSome

/-- Broadcasting preserves the registry/subscription alignment. -/
theorem registryAligned_broadcast {s : WebSocketState} (h : registryAligned s)
    (p : ℕ) (e : WebSocketEvent) (ex : Option ℕ) :
    registryAligned (s.broadcast_to_project p e ex) := by
  intro u
  rw [show (s.broadcast_to_project p e ex).user_connections = s.user_connections from rfl,
    broadcast_connections_eq]
  split
  · cases hc : s.connections u <;> simp [hc, ← h u]
  · exact h u

/-- The `send_to_user` preserves the alignment. -/
theorem registryAligned_send {s : WebSocketState} (h : registryAligned s)
    (v : ℕ) (e : WebSocketEvent) : registryAligned (s.send_to_user v e) := by
  intro u
  rw [show (s.send_to_user v e).user_connections = s.user_connections from
    send_to_user_user_connections_eq s v e]
  unfold WebSocketState.send_to_user
  cases hv : s.connections v with
  | none => exact h u
  | some q =>
    simp only [updFn]
    by_cases huv : u = v
    · subst huv
      simp [← h u, hv]
    · simp [huv, h u]

/-- The `modifyConnInfo` preserves the alignment. -/
theorem registryAligned_modify {s : WebSocketState} (h : registryAligned s)
    (v : ℕ) (f : ConnectionInfo → ConnectionInfo) :
    registryAligned (s.modifyConnInfo v f) := by
  intro u
  rw [show (s.modifyConnInfo v f).connections = s.connections from rfl]
  unfold WebSocketState.modifyConnInfo
  by_cases huv : u = v
  · subst huv
    cases hu : s.user_connections u <;> simp [hu, h u, hu ▸ h u]
  · simp [huv, h u]

/-- The `register_connection` preserves the alignment. -/
theorem registryAligned_register {s : WebSocketState} (h : registryAligned s)
    (v now : ℕ) : registryAligned (s.register_connection v now) := by
  intro u
  unfold WebSocketState.register_connection
  simp only [updFn]
  by_cases huv : u = v <;> simp [huv, h u]

/-- The cleanup fan-out loop preserves the alignment. -/
theorem registryAligned_foldl_userleft (summary : UserSummary) (uid now : ℕ) :
    ∀ (l : List ℕ) {s : WebSocketState}, registryAligned s →
      registryAligned (l.foldl
        (fun st project_id =>
          st.broadcast_to_project project_id
            (.UserLeft { user := summary, project_id := project_id, timestamp := now })
            (some uid)) s)
  | [], _, h => h
  | p :: rest, _, h =>
    registryAligned_foldl_userleft summary uid now rest
      (registryAligned_broadcast h p _ (some uid))

/-- The `unregister_connection` preserves the alignment. -/
theorem registryAligned_unregister {s : WebSocketState} (h : registryAligned s)
    (env : Services) (v now : ℕ) :
    registryAligned (s.unregister_connection env v now) := by
  show registryAligned (match s.user_connections v with
    | none => ({ s with connections := updFn s.connections v none } : WebSocketState)
    | some conn_info =>
      match env.get_user_by_id v with
      | none =>
        ({ connections := updFn s.connections v none,
           user_connections := updFn s.user_connections v none } : WebSocketState)
      | some user_summary =>
        List.foldl
          (fun st project_id =>
            st.broadcast_to_project project_id
              (.UserLeft { user := user_summary, project_id := project_id, timestamp := now })
              (some v))
          ({ connections := updFn s.connections v none,
             user_connections := updFn s.user_connections v none } : WebSocketState)
          conn_info.subscribed_projects)
  cases hu : s.user_connections v with
  | none =>
    intro u
    show (updFn s.connections v none u).isSome = (s.user_connections u).isSome
    simp only [updFn]
    by_cases huv : u = v
    · subst huv
      simp [hu]
    · simp [huv, h u]
  | some ci =>
    have h2 : registryAligned
        ({ connections := updFn s.connections v none,
           user_connections := updFn s.user_connections v none } : WebSocketState) := by
      intro u
      show (updFn s.connections v none u).isSome = (updFn s.user_connections v none u).isSome
      simp only [updFn]
      by_cases huv : u = v <;> simp [huv, h u]
    cases env.get_user_by_id v with
    | none => exact h2
    | some summary => exact registryAligned_foldl_userleft summary v now _ h2

/-- The `subscribeStep` preserves the alignment. -/
theorem registryAligned_subscribeStep {s : WebSocketState} (h : registryAligned s)
    (env : Services) (v p now : ℕ) :
    registryAligned (subscribeStep env s v p now) := by
  unfold subscribeStep WebSocketState.subscribe_to_project
  cases env.is_project_member p v with
  | error e => exact h
  | ok b =>
    cases b with
    | false => exact h
    | true =>
      cases env.get_user_by_id v with
      | none => exact registryAligned_send (registryAligned_modify h v _) v _
      | some summary =>
        exact registryAligned_send
          (registryAligned_broadcast (registryAligned_modify h v _) p _ (some v)) v _

/-- The `unsubscribe_from_project` preserves the alignment. -/
theorem registryAligned_unsubscribe {s : WebSocketState} (h : registryAligned s)
    (env : Services) (v p now : ℕ) :
    registryAligned (s.unsubscribe_from_project env v p now) := by
  unfold WebSocketState.unsubscribe_from_project
  cases env.get_user_by_id v with
  | none => exact registryAligned_modify h v _
  | some summary =>
    exact registryAligned_broadcast (registryAligned_modify h v _) p _ (some v)

/-- The state produced by `handle_message` (the unchanged state on an
error) preserves the alignment. -/
theorem registryAligned_msgStep {s : WebSocketState} (h : registryAligned s)
    (env : Services) (m : SocketMessage) (v now : ℕ) :
    registryAligned (match handle_message env m v now s with
      | .ok s1 => s1
      | .error _ => s) := by
  cases m with
  | close => exact h
  | ping => exact h
  | pong => exact registryAligned_modify h v _
  | text decoded =>
    cases decoded with
    | none => exact h
    | some e =>
      cases e with
      | Subscribe p => exact registryAligned_subscribeStep h env v p now
      | Unsubscribe p => exact registryAligned_unsubscribe h env v p now
      | UserTyping d => exact registryAligned_broadcast h d.project_id _ (some v)
      | UserStoppedTyping d => exact registryAligned_broadcast h d.project_id _ (some v)
      | Pong => exact registryAligned_modify h v _
      | Authenticate token => exact h
      | AuthenticationSuccess uid => exact h
      | AuthenticationError msg => exact h
      | SubscriptionSuccess p => exact h
      | SubscriptionError msg => exact h
      | TaskCreated d => exact h
      | TaskUpdated d => exact h
      | TaskDeleted t p => exact h
      | TaskMoved d => exact h
      | BoardCreated d => exact h
      | BoardUpdated d => exact h
      | BoardDeleted b p => exact h
      | CommentCreated d => exact h
      | CommentDeleted c t p => exact h
      | UserJoined d => exact h
      | UserLeft d => exact h
      | Error msg => exact h

/-- Every single operation preserves the alignment. -/
theorem registryAligned_applyOp {s : WebSocketState} (h : registryAligned s)
    (env : Services) (op : SessionOp) : registryAligned (applyOp env s op) := by
  cases op with
  | register u now => exact registryAligned_register h u now
  | unregister u now => exact registryAligned_unregister h env u now
  | subscribe u p now => exact registryAligned_subscribeStep h env u p now
  | unsubscribe u p now => exact registryAligned_unsubscribe h env u p now
  | msg u m now => exact registryAligned_msgStep h env m u now
  | broadcast p e ex => exact registryAligned_broadcast h p e ex
  | send u e => exact registryAligned_send h u e

/-- Every sequence of operations preserves the alignment. -/
theorem registryAligned_applyOps (env : Services) :
    ∀ (ops : List SessionOp) {s : WebSocketState}, registryAligned s →
      registryAligned (applyOps env ops s)
  | [], _, h => h
  | op :: rest, _, h =>
    registryAligned_applyOps env rest (registryAligned_applyOp h env op)

/-- The empty initial state is aligned. -/
theorem registryAligned_new : registryAligned WebSocketState.new := fun _ => rfl

/-- Claim C7: in every state reachable from the empty initial state by
any sequence of `register_connection`, `unregister_connection`,
`subscribe_to_project`, `unsubscribe_from_project`, message handling,
broadcasts and direct sends, a `ConnectionInfo` entry exists for user
`u` in `user_connections` if and only if `connections` holds an outbound
channel for `u`. -/
theorem registry_subscription_alignment (env : Services) (ops : List SessionOp)
    (u : ℕ) :
    (∃ ci, (applyOps env ops WebSocketState.new).user_connections u = some ci) ↔
    (∃ q, (applyOps env ops WebSocketState.new).connections u = some q) := by
  have h := registryAligned_applyOps env ops registryAligned_new u
  rw [← Option.isSome_iff_exists, ← Option.isSome_iff_exists, ← h]

end SimpleCards
